import Mathlib

/-!
Shallow embedding of the password-reset token lifecycle of
`src/services/password_reset_service.py` (class `PasswordResetService`).

The SQLite table `password_reset_tokens` (see
`src/migrations/create_password_reset_tokens.py`) is modelled as a list of
`TokenRecord`s; the `users` table is split into the user directory
(`User`: id, name, email) and the credential store (`Cred`: userId,
password), matching the two ways `reset_password` touches it (a JOIN for
lookup, an UPDATE of the password column).  Timestamps are natural
numbers; the source stores ISO-8601 UTC strings whose lexicographic
order agrees with chronological order, so `<` on `Nat` is a faithful
model of every comparison the source performs.  Exception paths of the
source (`except Exception: return False`) are modelled by explicit
boolean outcome parameters where a claim depends on them.
-/

namespace UserAuth

/-- A row of the `password_reset_tokens` table: `user_id`, `token`,
`expires_at`, `used` (the `id` and `created_at` columns are never read
by the service and are omitted). -/
structure TokenRecord where
  userId : Nat
  token : String
  expiresAt : Nat
  used : Bool
deriving DecidableEq, Repr

/-- The `password_reset_tokens` table. -/
abbrev Store := List TokenRecord

/-- A row of the `users` table as read by the service (id, name, email). -/
structure User where
  id : Nat
  name : String
  email : String
deriving DecidableEq, Repr

/-- The password column of the `users` table, keyed by user id. -/
structure Cred where
  userId : Nat
  password : String
deriving DecidableEq, Repr

/-- Result dictionaries returned by the orchestrator methods:
`{"success": True, "message": m}` becomes `ok m` and `{"error": m}`
becomes `err m`. -/
inductive ApiResult where
  | ok (message : String)
  | err (message : String)
deriving DecidableEq, Repr

/-- `self.token_expiry_hours = 1` (`PasswordResetService.__init__`);
time is measured in hours. -/
def tokenExpiryHours : Nat := 1

/-- `_store_reset_token` (lines 145-168): `DELETE FROM
password_reset_tokens WHERE user_id = ?` followed by an INSERT of the
new row with `expires_at = now + 1 hour` and `used = False`.  The
success path returns `True`; the exception path is not modelled (the
claims about it concern only the caller, which treats it as failure). -/
def storeResetToken (store : Store) (userId : Nat) (token : String) (now : Nat) : Store :=
  store.filter (fun r => !(r.userId == userId)) ++
    [⟨userId, token, now + tokenExpiryHours, false⟩]

/-- `_validate_reset_token` (lines 170-204): SELECT the row joined with
`users` by token; return `None` if absent, if `used`, or if
`now > expires_at`; otherwise build a `User` from the row. -/
def validateResetToken (store : Store) (users : List User) (token : String) (now : Nat) :
    Option User :=
  match store.find? (fun r => r.token == token) with
  | none => none
  | some r =>
    match users.find? (fun u => u.id == r.userId) with
    | none => none
    | some u =>
      if r.used then none
      else if r.expiresAt < now then none
      else some ⟨r.userId, u.name, u.email⟩

/-- `_mark_token_as_used` (lines 217-226): `UPDATE password_reset_tokens
SET used = 1 WHERE token = ?`; returns `True` unconditionally on the
non-exception path. -/
def markTokenAsUsed (store : Store) (token : String) : Store × Bool :=
  (store.map (fun r => if r.token == token then { r with used := true } else r), true)

/-- `_update_user_password` (lines 206-215): `UPDATE users SET
password = ? WHERE id = ?`. -/
def updateUserPassword (creds : List Cred) (userId : Nat) (hashed : String) : List Cred :=
  creds.map (fun c => if c.userId == userId then ⟨c.userId, hashed⟩ else c)

/-- `cleanup_expired_tokens` (lines 228-253): count rows with
`expires_at < now OR used`, then delete them with the same predicate
and the same captured `current_time`; returns (count, new store). -/
def cleanupExpiredTokens (store : Store) (now : Nat) : Nat × Store :=
  ((store.filter (fun r => decide (r.expiresAt < now) || r.used)).length,
   store.filter (fun r => !(decide (r.expiresAt < now) || r.used)))

/-- The generic message of `request_password_reset` (lines 44 and 60). -/
def genericResetMessage : String :=
  "If the email exists in our system, you will receive a password reset link."

/-- Modelled from the spec: the external Credential Store hashing
function (`werkzeug.security.generate_password_hash`, not part of this
repository).  Only its output being some string derived from the
password matters to the claims. -/
def hashPassword (p : String) : String :=
  String.append "hashed:" p

/-- `request_password_reset` (lines 26-68).  `User.find_by_email` is
modelled as `find?` over the user directory; `if not user or not
user.id` treats a user with id 0 as absent (Python falsiness);
`emailOk` models the boolean result of
`email_service.send_password_reset_email`.  Returns the result dict and
the final token store. -/
def requestPasswordReset (users : List User) (store : Store) (email token : String)
    (now : Nat) (emailOk : Bool) : ApiResult × Store :=
  match users.find? (fun u => u.email == email) with
  | none => (.ok genericResetMessage, store)
  | some u =>
    if u.id == 0 then (.ok genericResetMessage, store)
    else
      let store2 := storeResetToken store u.id token now
      if emailOk then (.ok genericResetMessage, store2)
      else (.err "Failed to send password reset email", store2)

/-- `reset_password` (lines 70-113).  The checks happen in source
order: token validation first (with the `not user or not user.email or
not user.id` guard), then the password-length check, then the
credential update (`updateOk` models `_update_user_password` raising:
on `False` the UPDATE did not happen), then `_mark_token_as_used`.  The
best-effort confirmation email does not affect the result.  Returns the
result dict, the final token store and the final credential store. -/
def resetPassword (users : List User) (creds : List Cred) (store : Store)
    (token newPassword : String) (now : Nat) (updateOk : Bool) :
    ApiResult × Store × List Cred :=
  match validateResetToken store users token now with
  | none => (.err "Invalid or expired reset token", store, creds)
  | some u =>
    if u.email == "" || u.id == 0 then (.err "Invalid or expired reset token", store, creds)
    else if newPassword.length < 8 then
      (.err "Password must be at least 8 characters long", store, creds)
    else if updateOk then
      (.ok "Password has been reset successfully",
       (markTokenAsUsed store token).1,
       updateUserPassword creds u.id (hashPassword newPassword))
    else (.err "Failed to update password", store, creds)

/-- The store-level operations of the service, for temporal claims:
`issue` is `_store_reset_token`, `markUsed` is `_mark_token_as_used`,
`cleanup` is `cleanup_expired_tokens`. -/
inductive Op where
  | issue (userId : Nat) (token : String) (now : Nat)
  | markUsed (token : String)
  | cleanup (now : Nat)
deriving DecidableEq, Repr

/-- Whether an operation inserts a row carrying token `t` (only `issue`
ever inserts). -/
def Op.issues (op : Op) (t : String) : Bool :=
  match op with
  | .issue _ t' _ => t' == t
  | _ => false

/-- Effect of one store operation on the table. -/
def applyOp (store : Store) (op : Op) : Store :=
  match op with
  | .issue uid t now => storeResetToken store uid t now
  | .markUsed t => (markTokenAsUsed store t).1
  | .cleanup now => (cleanupExpiredTokens store now).2

/-- Effect of a sequence of store operations. -/
def applyOps (store : Store) (ops : List Op) : Store :=
  ops.foldl applyOp store

/-- Token `t` is dead in a store: every row carrying it is marked used
(vacuously true when no row carries it). -/
def deadToken (store : Store) (t : String) : Prop :=
  ∀ r ∈ store, r.token = t → r.used = true

instance (store : Store) (t : String) : Decidable (deadToken store t) := by
  unfold deadToken; infer_instance

/-- A row is an unconsumed, unexpired token of user `uid` at time
`now` (the "active" rows of the spec's per-user invariant). -/
def isActive (uid now : Nat) (r : TokenRecord) : Bool :=
  r.userId == uid && !r.used && decide (now ≤ r.expiresAt)

/-- The spec's store invariant: at most one unconsumed, unexpired
token per user, at every time. -/
def atMostOneActive (store : Store) : Prop :=
  ∀ uid now, (store.filter (isActive uid now)).length ≤ 1

/-! ### Helper lemmas -/

theorem find?_append_of_left_none {α : Type} (p : α → Bool) (l1 l2 : List α)
    (h : ∀ a ∈ l1, p a = false) : (l1 ++ l2).find? p = l2.find? p := by
  induction l1 with
  | nil => rfl
  | cons a l ih =>
    have ha : p a = false := h a (by simp)
    simp only [List.cons_append, List.find?_cons, ha]
    exact ih (fun a ha => h a (by simp [ha]))

theorem length_filter_add_length_filter_not {α : Type} (p : α → Bool) (l : List α) :
    (l.filter p).length + (l.filter (fun a => !(p a))).length = l.length := by
  induction l with
  | nil => rfl
  | cons a l ih =>
    by_cases h : p a = true <;> simp [List.filter_cons, h] <;> omega

theorem length_filter_map_le {α : Type} (f : α → α) (p : α → Bool) (l : List α)
    (h : ∀ a, p (f a) = true → p a = true) :
    ((l.map f).filter p).length ≤ (l.filter p).length := by
  induction l with
  | nil => simp
  | cons a l ih =>
    simp only [List.map_cons, List.filter_cons]
    cases hfa : p (f a)
    · cases hpa : p a
      · simpa using ih
      · simp only [Bool.false_eq_true, if_false, if_true, List.length_cons]
        simp only [Bool.false_eq_true, if_false] at *
        omega
    · have hpa := h a hfa
      simp only [hpa, if_true, List.length_cons]
      omega

theorem atMostOneActive_applyOp (store : Store) (op : Op)
    (h : atMostOneActive store) : atMostOneActive (applyOp store op) := by
  intro uid now
  cases op with
  | issue uid' t nowI =>
    simp only [applyOp, storeResetToken, List.filter_append, List.length_append]
    by_cases huid : uid' = uid
    · subst huid
      have h1 : (store.filter (fun r => !(r.userId == uid'))).filter (isActive uid' now)
          = [] := by
        rw [List.filter_filter]
        rw [List.filter_eq_nil_iff]
        intro a _
        cases hb : a.userId == uid' <;> simp [isActive, hb]
      rw [h1]
      have h2 : (List.filter (isActive uid' now)
          [⟨uid', t, nowI + tokenExpiryHours, false⟩]).length ≤ 1 := by
        by_cases hact : isActive uid' now ⟨uid', t, nowI + tokenExpiryHours, false⟩ = true <;>
          simp [List.filter_cons, hact]
      simpa using h2
    · have h2 : List.filter (isActive uid now)
          [⟨uid', t, nowI + tokenExpiryHours, false⟩] = [] := by
        have : (uid' == uid) = false := by
          simp only [beq_eq_false_iff_ne, ne_eq]; exact huid
        simp [isActive, this]
      rw [h2]
      have hsub :
          List.Sublist ((store.filter (fun r => !(r.userId == uid'))).filter
            (isActive uid now)) (store.filter (isActive uid now)) :=
        (List.filter_sublist store).filter _
      have := hsub.length_le
      have hb := h uid now
      simp only [List.length_nil]
      omega
  | markUsed t =>
    simp only [applyOp, markTokenAsUsed]
    refine le_trans (length_filter_map_le _ _ _ ?_) (h uid now)
    intro a ha
    by_cases htok : (a.token == t) = true
    · exfalso
      rw [if_pos htok] at ha
      simp [isActive] at ha
    · rwa [if_neg htok] at ha
  | cleanup nowC =>
    simp only [applyOp, cleanupExpiredTokens]
    exact le_trans (((List.filter_sublist store).filter _).length_le) (h uid now)

theorem deadToken_markTokenAsUsed (store : Store) (t : String) :
    deadToken (markTokenAsUsed store t).1 t := by
  intro r hr hrt
  simp only [markTokenAsUsed, List.mem_map] at hr
  obtain ⟨r0, _, hfr⟩ := hr
  by_cases h : (r0.token == t) = true
  · rw [if_pos h] at hfr
    rw [← hfr]
  · rw [if_neg h] at hfr
    subst hfr
    exact absurd (by simp [hrt]) h

theorem deadToken_applyOp (store : Store) (t : String) (op : Op)
    (hd : deadToken store t) (hf : op.issues t = false) :
    deadToken (applyOp store op) t := by
  cases op with
  | issue uid t' nowI =>
    intro r hr hrt
    simp only [applyOp, storeResetToken] at hr
    rcases List.mem_append.mp hr with h1 | h1
    · exact hd r (List.mem_filter.mp h1).1 hrt
    · have hr2 : r = ⟨uid, t', nowI + tokenExpiryHours, false⟩ := by simpa using h1
      subst hr2
      have ht : t' = t := by simpa using hrt
      have hne : (t' == t) = false := by simpa [Op.issues] using hf
      rw [ht] at hne
      simp at hne
  | markUsed t' =>
    intro r hr hrt
    simp only [applyOp, markTokenAsUsed, List.mem_map] at hr
    obtain ⟨r0, hr0, hfr⟩ := hr
    by_cases h : (r0.token == t') = true
    · rw [if_pos h] at hfr
      rw [← hfr]
    · rw [if_neg h] at hfr
      subst hfr
      exact hd r0 hr0 hrt
  | cleanup nowC =>
    intro r hr hrt
    simp only [applyOp, cleanupExpiredTokens] at hr
    exact hd r (List.mem_filter.mp hr).1 hrt

theorem deadToken_applyOps (store : Store) (t : String) (ops : List Op)
    (hd : deadToken store t) (hf : ∀ op ∈ ops, op.issues t = false) :
    deadToken (applyOps store ops) t := by
  induction ops generalizing store with
  | nil => exact hd
  | cons op ops ih =>
    exact ih _ (deadToken_applyOp _ _ _ hd (hf op (by simp)))
      (fun o ho => hf o (by simp [ho]))

theorem validateResetToken_none_of_dead (store : Store) (users : List User)
    (t : String) (now : Nat) (hd : deadToken store t) :
    validateResetToken store users t now = none := by
  cases hfind : store.find? (fun r => r.token == t) with
  | none => simp [validateResetToken, hfind]
  | some r =>
    have hmem := List.mem_of_find?_eq_some hfind
    have hp := List.find?_some hfind
    have hused : r.used = true := hd r hmem (by simpa using hp)
    simp only [validateResetToken, hfind]
    cases users.find? (fun u => u.id == r.userId) with
    | none => rfl
    | some u => simp [hused]

/-! ### Claim theorems -/

/-- C9: `_mark_token_as_used` is idempotent: marking an already-used
token used again succeeds (`True`) and leaves the table exactly as it
was after the first marking. -/
theorem markTokenAsUsed_idempotent (store : Store) (t : String) :
    markTokenAsUsed (markTokenAsUsed store t).1 t = markTokenAsUsed store t := by
  unfold markTokenAsUsed
  simp only [Prod.mk.injEq, and_true]
  rw [List.map_map]
  apply List.map_congr_left
  intro r _
  obtain ⟨uid, tok, exp, used⟩ := r
  simp only [Function.comp]
  by_cases h : (tok == t) = true <;> simp [h]

/-- C10: marking a token that is absent from the table returns success
(`True`, the `UPDATE` matches zero rows) and leaves the table
unchanged. -/
theorem markTokenAsUsed_absent (store : Store) (t : String)
    (h : ∀ r ∈ store, r.token ≠ t) :
    markTokenAsUsed store t = (store, true) := by
  unfold markTokenAsUsed
  have : store.map (fun r => if r.token == t then { r with used := true } else r)
      = store.map id := by
    apply List.map_congr_left
    intro r hr
    have : (r.token == t) = false := by
      simp only [beq_eq_false_iff_ne, ne_eq]
      exact h r hr
    simp [this]
  rw [this, List.map_id]

/-- Witness for C10 at a concrete table and absent token. -/
theorem markTokenAsUsed_absent_witness :
    markTokenAsUsed [⟨1, "a", 5, false⟩] "b" = ([⟨1, "a", 5, false⟩], true) :=
  markTokenAsUsed_absent [⟨1, "a", 5, false⟩] "b" (by decide)

/-- C7: `cleanup_expired_tokens` retains exactly the rows with
`used = false` and `now ≤ expiresAt`, deletes every row with
`used = true` or `expiresAt < now`, and the returned count plus the
retained rows add up to the whole table (the count is the number of
rows removed). -/
theorem cleanupExpiredTokens_spec (store : Store) (now : Nat) :
    (∀ r, r ∈ (cleanupExpiredTokens store now).2 ↔
        (r ∈ store ∧ r.used = false ∧ now ≤ r.expiresAt)) ∧
    (cleanupExpiredTokens store now).1 + (cleanupExpiredTokens store now).2.length
      = store.length := by
  constructor
  · intro r
    simp only [cleanupExpiredTokens, List.mem_filter, Bool.not_eq_true',
      Bool.or_eq_false_iff, decide_eq_false_iff_not, not_lt]
    tauto
  · exact length_filter_add_length_filter_not _ store

/-- The concrete scenario of the spec: 3 expired, 2 used, 2 valid rows
at `now = 10`: the sweep reports 5 removed and retains exactly the 2
valid rows. -/
theorem cleanupExpiredTokens_mixed_example :
    cleanupExpiredTokens
      [⟨1, "e1", 3, false⟩, ⟨2, "e2", 4, false⟩, ⟨3, "e3", 9, false⟩,
       ⟨4, "u1", 50, true⟩, ⟨5, "u2", 60, true⟩,
       ⟨6, "v1", 10, false⟩, ⟨7, "v2", 99, false⟩] 10
    = (5, [⟨6, "v1", 10, false⟩, ⟨7, "v2", 99, false⟩]) := by
  decide

/-- C4 counterexample: with a 7-character password and a token that is
not in the store, `reset_password` fails with the invalid-token error,
not the password-length `ValidationError`: the token lookup happens
before the length check. -/
theorem resetPassword_short_password_counterexample :
    "short12".length < 8 ∧
    (resetPassword [] [] [] "tok" "short12" 0 true).1
      = .err "Invalid or expired reset token" ∧
    (resetPassword [] [] [] "tok" "short12" 0 true).1
      ≠ .err "Password must be at least 8 characters long" := by
  refine ⟨by decide, rfl, by decide⟩

/-- C4 amended: for every new password of length < 8, `reset_password`
fails and leaves the token store and the credential store unchanged
(the lookup only reads); when the token validates and yields a usable
user the failure is the password-too-short `ValidationError`, but the
token lookup happens first, so an invalid token yields the
invalid-token error instead. -/
theorem resetPassword_short_password (users : List User) (creds : List Cred)
    (store : Store) (token newPassword : String) (now : Nat) (updateOk : Bool)
    (h : newPassword.length < 8) :
    (resetPassword users creds store token newPassword now updateOk).2.1 = store ∧
    (resetPassword users creds store token newPassword now updateOk).2.2 = creds ∧
    (∀ u, validateResetToken store users token now = some u →
      u.email ≠ "" → u.id ≠ 0 →
      (resetPassword users creds store token newPassword now updateOk).1
        = .err "Password must be at least 8 characters long") := by
  unfold resetPassword
  cases hv : validateResetToken store users token now with
  | none => simp
  | some u =>
    by_cases hg : (u.email == "" || u.id == 0) = true
    · refine ⟨by simp [hg], by simp [hg], ?_⟩
      intro u' hu' he hi
      cases hu'
      rcases Bool.or_eq_true_iff.mp hg with h1 | h1
      · exact absurd (by simpa using h1) he
      · exact absurd (by simpa using h1) hi
    · simp [hg, h]

/-- Witness for C4's amended theorem: a valid token with a 5-character
password yields the password-length error and leaves both stores
unchanged. -/
theorem resetPassword_short_password_witness :
    ("short".length < 8) ∧
    ((resetPassword [⟨1, "n", "e"⟩] [⟨1, "old"⟩] [⟨1, "tok", 9, false⟩]
        "tok" "short" 5 true).2.1 = [⟨1, "tok", 9, false⟩] ∧
     (resetPassword [⟨1, "n", "e"⟩] [⟨1, "old"⟩] [⟨1, "tok", 9, false⟩]
        "tok" "short" 5 true).2.2 = [⟨1, "old"⟩] ∧
     (resetPassword [⟨1, "n", "e"⟩] [⟨1, "old"⟩] [⟨1, "tok", 9, false⟩]
        "tok" "short" 5 true).1 = .err "Password must be at least 8 characters long") := by
  refine ⟨by decide, ?_⟩
  have h := resetPassword_short_password [⟨1, "n", "e"⟩] [⟨1, "old"⟩]
    [⟨1, "tok", 9, false⟩] "tok" "short" 5 true (by decide)
  exact ⟨h.1, h.2.1, h.2.2 ⟨1, "n", "e"⟩ (by decide) (by decide) (by decide)⟩

/-- C1: `_validate_reset_token` returns `None` for an absent token; for
a stored row (joined with its user) it returns the associated user iff
`used = false` and `now ≤ expiresAt` — so the token is still valid at
the boundary `now = expiresAt` — and returns `None` whenever the row is
used or `now > expiresAt`. -/
theorem validateResetToken_iff (store : Store) (users : List User)
    (token : String) (now : Nat) :
    (store.find? (fun r => r.token == token) = none →
      validateResetToken store users token now = none) ∧
    (∀ r, store.find? (fun r => r.token == token) = some r →
      ∀ u, users.find? (fun x => x.id == r.userId) = some u →
        ((validateResetToken store users token now
            = some ⟨r.userId, u.name, u.email⟩ ↔
          (r.used = false ∧ now ≤ r.expiresAt)) ∧
         ((r.used = true ∨ r.expiresAt < now) →
            validateResetToken store users token now = none))) := by
  constructor
  · intro hfind
    simp [validateResetToken, hfind]
  · intro r hr u hu
    constructor
    · simp only [validateResetToken, hr, hu]
      by_cases hused : r.used = true
      · simp [hused]
      · by_cases hexp : r.expiresAt < now
        · simp [hused, hexp]
        · simp [hused, hexp]
          omega
    · rintro (hcase | hcase) <;> simp only [validateResetToken, hr, hu]
      · simp [hcase]
      · by_cases hused : r.used = true <;> simp [hused, hcase]

/-- Witness for C1 at the expiry boundary `now = expiresAt`: the token
still validates. -/
theorem validateResetToken_iff_witness :
    validateResetToken [⟨1, "t", 5, false⟩] [⟨1, "n", "e"⟩] "t" 5
      = some ⟨1, "n", "e"⟩ :=
  ((validateResetToken_iff [⟨1, "t", 5, false⟩] [⟨1, "n", "e"⟩] "t" 5).2
    ⟨1, "t", 5, false⟩ (by decide) ⟨1, "n", "e"⟩ (by decide)).1.mpr (by decide)

/-- C5: a reset request for an email with no matching user returns the
same generic success dictionary as a successful request for an existing
user, without touching the token store: two runs differing only in
whether the email exists are indistinguishable to the caller. -/
theorem requestReset_enumeration_resistance (users1 users2 : List User)
    (store1 store2 : Store) (email t1 t2 : String) (now1 now2 : Nat)
    (e1 : Bool) (u : User)
    (h1 : users1.find? (fun x => x.email == email) = none)
    (h2 : users2.find? (fun x => x.email == email) = some u)
    (h3 : u.id ≠ 0) :
    requestPasswordReset users1 store1 email t1 now1 e1
      = (.ok genericResetMessage, store1) ∧
    (requestPasswordReset users2 store2 email t2 now2 true).1
      = .ok genericResetMessage ∧
    (requestPasswordReset users1 store1 email t1 now1 e1).1
      = (requestPasswordReset users2 store2 email t2 now2 true).1 := by
  have hid : (u.id == 0) = false := by
    simp only [beq_eq_false_iff_ne, ne_eq]; exact h3
  have hA : requestPasswordReset users1 store1 email t1 now1 e1
      = (.ok genericResetMessage, store1) := by
    simp [requestPasswordReset, h1]
  have hB : (requestPasswordReset users2 store2 email t2 now2 true).1
      = .ok genericResetMessage := by
    simp [requestPasswordReset, h2, hid]
  exact ⟨hA, hB, by rw [hA, hB]⟩

/-- Witness for C5: nonexistent email `a@b` in an empty directory vs
the same email present; both requests answer with the generic
message, and the first leaves the (empty) store unchanged. -/
theorem requestReset_enumeration_resistance_witness :
    requestPasswordReset [] [] "a@b" "t1" 0 true
      = (.ok genericResetMessage, []) ∧
    (requestPasswordReset [⟨1, "n", "a@b"⟩] [] "a@b" "t2" 0 true).1
      = .ok genericResetMessage :=
  ⟨(requestReset_enumeration_resistance [] [⟨1, "n", "a@b"⟩] [] [] "a@b"
      "t1" "t2" 0 0 true ⟨1, "n", "a@b"⟩ (by decide) (by decide) (by decide)).1,
   (requestReset_enumeration_resistance [] [⟨1, "n", "a@b"⟩] [] [] "a@b"
      "t1" "t2" 0 0 true ⟨1, "n", "a@b"⟩ (by decide) (by decide) (by decide)).2.1⟩

/-- C6: when the credential update fails, `reset_password` returns the
update-failure error, leaves the token store and credential store
unchanged, and the token still validates afterwards (the user may
retry with it). -/
theorem resetPassword_update_failure (users : List User) (creds : List Cred)
    (store : Store) (token newPassword : String) (now : Nat) (u : User)
    (hv : validateResetToken store users token now = some u)
    (he : u.email ≠ "") (hi : u.id ≠ 0)
    (hp : 8 ≤ newPassword.length) :
    resetPassword users creds store token newPassword now false
      = (.err "Failed to update password", store, creds) ∧
    validateResetToken
      (resetPassword users creds store token newPassword now false).2.1
      users token now = some u := by
  have hg : (u.email == "" || u.id == 0) = false := by
    simp only [Bool.or_eq_false_iff, beq_eq_false_iff_ne, ne_eq]
    exact ⟨he, hi⟩
  have hlen : ¬ newPassword.length < 8 := by omega
  have hmain : resetPassword users creds store token newPassword now false
      = (.err "Failed to update password", store, creds) := by
    simp [resetPassword, hv, hg, hlen]
  exact ⟨hmain, by rw [hmain]; exact hv⟩

/-- Witness for C6: a valid token, a long-enough password, a failing
credential update: the call fails and the same token still validates. -/
theorem resetPassword_update_failure_witness :
    resetPassword [⟨1, "n", "e"⟩] [⟨1, "old"⟩] [⟨1, "tok", 10, false⟩]
      "tok" "password" 5 false
      = (.err "Failed to update password", [⟨1, "tok", 10, false⟩], [⟨1, "old"⟩]) :=
  (resetPassword_update_failure [⟨1, "n", "e"⟩] [⟨1, "old"⟩]
    [⟨1, "tok", 10, false⟩] "tok" "password" 5 ⟨1, "n", "e"⟩
    (by decide) (by decide) (by decide) (by decide)).1

/-- C2: `_store_reset_token` deletes every row of the user before
inserting the fresh one: after issuing a new token `t2` for user `uid`
no row carries any old token `t1` of that user, `_validate_reset_token`
reports not-found for `t1` at any time, the user's rows are exactly the
single fresh row, and every store operation preserves the at-most-one
unconsumed-unexpired-token-per-user invariant. -/
theorem storeResetToken_evicts_previous (store : Store) (users : List User)
    (uid : Nat) (t1 t2 : String) (now now2 : Nat)
    (hne : t1 ≠ t2)
    (hOwn : ∀ r ∈ store, r.token = t1 → r.userId = uid) :
    (∀ r ∈ storeResetToken store uid t2 now, r.token ≠ t1) ∧
    validateResetToken (storeResetToken store uid t2 now) users t1 now2 = none ∧
    (storeResetToken store uid t2 now).filter (fun r => r.userId == uid)
      = [⟨uid, t2, now + tokenExpiryHours, false⟩] ∧
    (∀ s : Store, ∀ op : Op, atMostOneActive s → atMostOneActive (applyOp s op)) := by
  have hgone : ∀ r ∈ storeResetToken store uid t2 now, r.token ≠ t1 := by
    intro r hr
    simp only [storeResetToken] at hr
    rcases List.mem_append.mp hr with h1 | h1
    · obtain ⟨hmem, hp⟩ := List.mem_filter.mp h1
      intro ht
      have huid := hOwn r hmem ht
      simp [huid] at hp
    · have hr2 : r = ⟨uid, t2, now + tokenExpiryHours, false⟩ := by simpa using h1
      subst hr2
      exact Ne.symm hne
  refine ⟨hgone, ?_, ?_, fun s op => atMostOneActive_applyOp s op⟩
  · have hfind : (storeResetToken store uid t2 now).find?
        (fun r => r.token == t1) = none := by
      rw [List.find?_eq_none]
      intro r hr
      simpa using hgone r hr
    simp [validateResetToken, hfind]
  · simp only [storeResetToken, List.filter_append, List.filter_filter]
    have h1 : store.filter (fun a => (a.userId == uid) && !(a.userId == uid)) = [] := by
      rw [List.filter_eq_nil_iff]
      intro a _
      cases hb : a.userId == uid <;> simp [hb]
    rw [h1]
    simp

/-- Witness for C2: issuing `t2` for user 7 removes 7's earlier token
`t1`; `t1` no longer validates, and 7's rows are the single new row. -/
theorem storeResetToken_evicts_previous_witness :
    validateResetToken (storeResetToken [⟨7, "t1", 30, false⟩] 7 "t2" 10)
      [⟨7, "n", "e"⟩] "t1" 4 = none ∧
    (storeResetToken [⟨7, "t1", 30, false⟩] 7 "t2" 10).filter
      (fun r => r.userId == 7) = [⟨7, "t2", 10 + tokenExpiryHours, false⟩] := by
  have h := storeResetToken_evicts_previous [⟨7, "t1", 30, false⟩] [⟨7, "n", "e"⟩]
    7 "t1" "t2" 10 4 (by decide) (by decide)
  exact ⟨h.2.1, h.2.2.1⟩

/-- C3: once `_mark_token_as_used` sets a token's `used` flag, every
row carrying that token stays used across any further sequence of store
operations that does not issue that same token string again, and
`_validate_reset_token` returns not-found for it in every such state,
at every time — even while `now ≤ expiresAt`. -/
theorem markTokenAsUsed_terminal (store : Store) (t : String) (ops : List Op)
    (hf : ∀ op ∈ ops, op.issues t = false) :
    deadToken (applyOps (markTokenAsUsed store t).1 ops) t ∧
    (∀ users now,
      validateResetToken (applyOps (markTokenAsUsed store t).1 ops) users t now
        = none) := by
  have hd := deadToken_applyOps (markTokenAsUsed store t).1 t ops
    (deadToken_markTokenAsUsed store t) hf
  exact ⟨hd, fun users now => validateResetToken_none_of_dead _ users t now hd⟩

/-- Witness for C3: token `t` (expiring at 100) is consumed, then a
cleanup and an issue of a different token happen; at time 50, well
before expiry, `t` still does not validate. -/
theorem markTokenAsUsed_terminal_witness :
    validateResetToken
      (applyOps (markTokenAsUsed [⟨1, "t", 100, false⟩] "t").1
        [Op.cleanup 0, Op.issue 2 "s" 5])
      [⟨1, "n", "e"⟩] "t" 50 = none :=
  (markTokenAsUsed_terminal [⟨1, "t", 100, false⟩] "t"
    [Op.cleanup 0, Op.issue 2 "s" 5] (by decide)).2 [⟨1, "n", "e"⟩] 50

/-- C8: when the user exists but the notification email fails,
`request_password_reset` returns a failure result while the freshly
issued token stays in the store and still validates at any time up to
its expiry: the issuance is not rolled back. -/
theorem requestReset_email_failure (users : List User) (store : Store)
    (email token : String) (now now2 : Nat) (u u2 : User)
    (hu : users.find? (fun x => x.email == email) = some u)
    (hid : u.id ≠ 0)
    (hfresh : ∀ r ∈ store, r.token ≠ token)
    (hu2 : users.find? (fun x => x.id == u.id) = some u2)
    (hnow : now2 ≤ now + tokenExpiryHours) :
    requestPasswordReset users store email token now false
      = (.err "Failed to send password reset email",
         storeResetToken store u.id token now) ∧
    validateResetToken (storeResetToken store u.id token now) users token now2
      = some ⟨u.id, u2.name, u2.email⟩ := by
  have hid0 : (u.id == 0) = false := by
    simp only [beq_eq_false_iff_ne, ne_eq]; exact hid
  constructor
  · simp [requestPasswordReset, hu, hid0]
  · have hfind : (storeResetToken store u.id token now).find?
        (fun r => r.token == token)
        = some ⟨u.id, token, now + tokenExpiryHours, false⟩ := by
      rw [storeResetToken, find?_append_of_left_none]
      · simp
      · intro a ha
        have := hfresh a (List.mem_filter.mp ha).1
        simpa using this
    have hexp : ¬ (now + tokenExpiryHours < now2) := by omega
    simp [validateResetToken, hfind, hu2, hexp]

/-- Witness for C8: user 3's reset request with failing email returns
the delivery error, yet the new token validates right at its expiry. -/
theorem requestReset_email_failure_witness :
    requestPasswordReset [⟨3, "nm", "a@b"⟩] [] "a@b" "tok" 4 false
      = (.err "Failed to send password reset email",
         storeResetToken [] 3 "tok" 4) ∧
    validateResetToken (storeResetToken [] 3 "tok" 4) [⟨3, "nm", "a@b"⟩]
      "tok" (4 + tokenExpiryHours) = some ⟨3, "nm", "a@b"⟩ :=
  requestReset_email_failure [⟨3, "nm", "a@b"⟩] [] "a@b" "tok" 4
    (4 + tokenExpiryHours) ⟨3, "nm", "a@b"⟩ ⟨3, "nm", "a@b"⟩
    (by decide) (by decide) (by decide) (by decide) (by decide)

end UserAuth
